import Mathlib

/-!
Verification of the MiniGPT intro-bot UI core (ConfigStore, ResponsePlayer,
Session Controller) against its natural-language specification.

The embedding follows the TypeScript source:
* `src/src/components/SettingsPanel.tsx` — preset table, `handlePresetChange`,
  `handleReset`, `updateConfig`;
* `src/src/components/OutputBox.tsx` — the typewriter reveal effect
  (`useEffect` over `[content, isGenerating]` with a `setInterval` timer);
* `src/src/pages/Index.tsx` — `handleGenerate`, `handleHistorySelect`,
  `clearHistory`, `saveHistory`, and the initial config state.

JavaScript numbers are modelled as `Rat` (all literals in the source are
short decimals, represented exactly); JS strings in the player are modelled
as `List Char` (so `content.slice(0, n)` is `List.take n`); `localStorage`
is modelled as an optional stored collection (`none` = key absent).
-/

/-- The `preset` enum of `ModelConfig` (`'creative' | 'balanced' | 'precise'`). -/
inductive Preset where
  | creative
  | balanced
  | precise
deriving DecidableEq, Repr

/-- `ModelConfig` from `SettingsPanel.tsx` / `Index.tsx`: four numeric
sampling parameters plus the preset tag.  All four numeric fields are JS
numbers in the source, modelled as `Rat`. -/
structure ModelConfig where
  temperature : Rat
  maxTokens : Rat
  topK : Rat
  topP : Rat
  preset : Preset
deriving DecidableEq, Repr

/-- The four numeric values of one named preset (the `presets` table rows in
`SettingsPanel.tsx`). -/
structure PresetValues where
  temperature : Rat
  maxTokens : Rat
  topK : Rat
  topP : Rat
deriving DecidableEq, Repr

/-- The `presets` constant of `SettingsPanel.tsx` lines 23-27. -/
def presets : Preset → PresetValues
  | .creative => { temperature := 1.2, maxTokens := 200, topK := 80, topP := 0.95 }
  | .balanced => { temperature := 0.7, maxTokens := 150, topK := 50, topP := 0.9 }
  | .precise => { temperature := 0.3, maxTokens := 100, topK := 20, topP := 0.8 }

/-- `handlePresetChange` (`SettingsPanel.tsx` lines 30-36): spreads the prior
config, then overwrites the four numeric fields with the preset's values and
sets the `preset` tag. -/
def handlePresetChange (config : ModelConfig) (p : Preset) : ModelConfig :=
  { config with
    temperature := (presets p).temperature
    maxTokens := (presets p).maxTokens
    topK := (presets p).topK
    topP := (presets p).topP
    preset := p }

/-- `handleReset` (`SettingsPanel.tsx` lines 38-46): the hardcoded balanced
default handed to `onConfigChange`; it reads nothing from the prior config. -/
def handleReset : ModelConfig :=
  { temperature := 0.7, maxTokens := 150, topK := 50, topP := 0.9, preset := .balanced }

/-- The keys accepted by `updateConfig` (`keyof ModelConfig` restricted to the
numeric sliders that call it). -/
inductive ConfigField where
  | temperature
  | maxTokens
  | topK
  | topP
deriving DecidableEq, Repr

/-- `updateConfig` (`SettingsPanel.tsx` lines 48-53): spread the prior config
and overwrite the single named numeric field with the new value. -/
def updateConfig (config : ModelConfig) (key : ConfigField) (value : Rat) : ModelConfig :=
  match key with
  | .temperature => { config with temperature := value }
  | .maxTokens => { config with maxTokens := value }
  | .topK => { config with topK := value }
  | .topP => { config with topP := value }

/-- Read one numeric field of a config by its `ConfigField` name. -/
def getField (config : ModelConfig) : ConfigField → Rat
  | .temperature => config.temperature
  | .maxTokens => config.maxTokens
  | .topK => config.topK
  | .topP => config.topP

/-- The initial config state of the page (`Index.tsx` lines 38-44). -/
def initialConfig : ModelConfig :=
  { temperature := 0.7, maxTokens := 150, topK := 50, topP := 0.9, preset := .balanced }

/-- C3: for every prior config, applying a named preset yields exactly that
preset's four canonical numeric values and sets the `preset` tag to that
name (creative: 1.2/200/80/0.95; balanced: 0.7/150/50/0.9;
precise: 0.3/100/20/0.8). -/
theorem applyPreset_canonical (config : ModelConfig) (p : Preset) :
    handlePresetChange config p =
      { temperature := (presets p).temperature, maxTokens := (presets p).maxTokens,
        topK := (presets p).topK, topP := (presets p).topP, preset := p } ∧
    presets .creative = { temperature := 1.2, maxTokens := 200, topK := 80, topP := 0.95 } ∧
    presets .balanced = { temperature := 0.7, maxTokens := 150, topK := 50, topP := 0.9 } ∧
    presets .precise = { temperature := 0.3, maxTokens := 100, topK := 20, topP := 0.8 } :=
  ⟨rfl, rfl, rfl, rfl⟩

/-- C7: `updateField` replaces only the named field: afterwards that field
reads the new value, every other numeric field reads its prior value, and
the `preset` tag is unchanged. -/
theorem updateField_frame (config : ModelConfig) (key : ConfigField) (value : Rat) :
    getField (updateConfig config key value) key = value ∧
    (∀ other : ConfigField, other ≠ key →
      getField (updateConfig config key value) other = getField config other) ∧
    (updateConfig config key value).preset = config.preset := by
  refine ⟨?_, ?_, ?_⟩
  · cases key <;> rfl
  · intro other hne
    cases key <;> cases other <;> first | exact absurd rfl hne | rfl
  · cases key <;> rfl

/-- Witness for C7 at a concrete input: updating `temperature` to `0.3` on the
initial config leaves `maxTokens` at `150` and the preset at `balanced`. -/
theorem updateField_frame_witness :
    getField (updateConfig initialConfig .temperature 0.3) .temperature = 0.3 ∧
    getField (updateConfig initialConfig .temperature 0.3) .maxTokens = 150 ∧
    (updateConfig initialConfig .temperature 0.3).preset = .balanced := by
  obtain ⟨h1, h2, h3⟩ := updateField_frame initialConfig .temperature 0.3
  exact ⟨h1, h2 .maxTokens (by decide), h3⟩

/-- Apply `setConfig` with a field update to the page state's config slot
(`SettingsPanel` invoking `onConfigChange = setConfig`). -/
def resetConfigOf (_prior : ModelConfig) : ModelConfig :=
  handleReset

/-- C9: `reset()` yields the balanced default
`{temperature 0.7, maxTokens 150, topK 50, topP 0.9, preset balanced}`
regardless of the prior config, and the page's initial config equals that
same value. -/
theorem reset_yields_default (prior : ModelConfig) :
    resetConfigOf prior =
      { temperature := 0.7, maxTokens := 150, topK := 50, topP := 0.9, preset := .balanced } ∧
    initialConfig =
      { temperature := 0.7, maxTokens := 150, topK := 50, topP := 0.9, preset := .balanced } :=
  ⟨rfl, rfl⟩

/-! ## ResponsePlayer (`OutputBox.tsx`, typewriter effect)

The component keeps `displayedContent` and `isTyping` in React state, plus a
local `index` counter captured by the interval callback, plus the interval
handle itself.  A player instance owns at most one interval handle (the
effect stores a single `timer` and its cleanup clears it), modelled by the
single `timerActive` flag.  The content string is modelled as `List Char`,
so `content.slice(0, n)` is `List.take n`. -/

structure PlayerState where
  displayedContent : List Char
  isTyping : Bool
  index : Nat
  timerActive : Bool
deriving DecidableEq, Repr

/-- The tick interval of the reveal timer in milliseconds
(`setInterval(..., 15)` in `OutputBox.tsx`; the `part_001` restyle uses 20). -/
def typewriterIntervalMs : Nat := 15

/-- One firing of the interval callback (`OutputBox.tsx` lines 28-36): while
`index < content.length` reveal one more character (`content.slice(0, index+1)`)
and advance `index`; otherwise drop the typing flag and clear the interval.
A cleared interval no longer fires, so a state without an active timer is
left unchanged. -/
def typewriterTick (content : List Char) (s : PlayerState) : PlayerState :=
  if s.timerActive = false then s
  else if s.index < content.length then
    { s with displayedContent := content.take (s.index + 1), index := s.index + 1 }
  else
    { s with isTyping := false, timerActive := false }

/-- One run of the typewriter `useEffect` (`OutputBox.tsx` lines 22-40) upon a
change of `content`/`isGenerating`: React first runs the previous cleanup
(`clearInterval(timer)`), then the body, which — only when `content` is
non-empty and `isGenerating` is false — sets `isTyping`, clears the displayed
text, and starts a fresh interval at `index = 0`. -/
def typewriterEffect (content : List Char) (isGenerating : Bool) (s : PlayerState) :
    PlayerState :=
  if content ≠ [] ∧ isGenerating = false then
    { displayedContent := [], isTyping := true, index := 0, timerActive := true }
  else
    { s with timerActive := false }

/-- `k` elapsed ticks of the interval after a state. -/
def runTicks (content : List Char) : Nat → PlayerState → PlayerState
  | 0, s => s
  | k + 1, s => typewriterTick content (runTicks content k s)

/-- Full characterisation of the player state `k` ticks after activation,
proved by induction on `k`: up to and including tick `content.length` the
state is `⟨content.take k, true, k, true⟩`; strictly afterwards the reveal
has terminated with the full content shown and the timer cleared. -/
theorem runTicks_activated (content : List Char) (s : PlayerState) (hne : content ≠ [])
    (k : Nat) :
    runTicks content k (typewriterEffect content false s) =
      if k ≤ content.length then
        { displayedContent := content.take k, isTyping := true, index := k,
          timerActive := true }
      else
        { displayedContent := content, isTyping := false, index := content.length,
          timerActive := false } := by
  induction k with
  | zero =>
    simp [runTicks, typewriterEffect, hne]
  | succ k ih =>
    rw [runTicks, ih]
    by_cases hk : k ≤ content.length
    · rcases lt_or_eq_of_le hk with hlt | heq
      · simp [typewriterTick, hk, hlt, Nat.succ_le_of_lt hlt]
      · subst heq
        simp [typewriterTick, List.take_length]
    · have hlt : content.length < k := Nat.lt_of_not_le hk
      have h1 : ¬ k + 1 ≤ content.length := by omega
      simp [typewriterTick, hk, h1]

/-- C1 counterexample: the claim asserts `isTyping` is false as soon as
`k ≥ content.length` ticks have elapsed, but with `content = "hello"` and
`k = 5 = content.length` the full text is displayed while `isTyping` is
still `true` — the callback only drops the flag on the following tick. -/
theorem typewriter_isTyping_at_length_counterexample :
    5 ≥ (String.toList "hello").length ∧
    (runTicks (String.toList "hello") 5 (typewriterEffect (String.toList "hello") false
      { displayedContent := [], isTyping := false, index := 0,
        timerActive := false })).displayedContent = String.toList "hello" ∧
    (runTicks (String.toList "hello") 5 (typewriterEffect (String.toList "hello") false
      { displayedContent := [], isTyping := false, index := 0,
        timerActive := false })).isTyping = true := by
  refine ⟨by decide, ?_, ?_⟩ <;> decide

/-- C1 (amended): activating the player on non-empty content with
`isGenerating = false` resets the displayed text to empty; after `k` elapsed
ticks the displayed text is `content.slice(0, min(k, content.length))`;
`isTyping` stays true through tick `content.length` (the tick that reveals
the last character), and once `k ≥ content.length + 1` the displayed text is
the full content and `isTyping` is false. -/
theorem typewriter_reveal (content : List Char) (s : PlayerState) (hne : content ≠ [])
    (k : Nat) :
    (typewriterEffect content false s).displayedContent = [] ∧
    (runTicks content k (typewriterEffect content false s)).displayedContent =
      content.take k ∧
    (k ≤ content.length →
      (runTicks content k (typewriterEffect content false s)).isTyping = true) ∧
    (content.length < k →
      (runTicks content k (typewriterEffect content false s)).isTyping = false ∧
      (runTicks content k (typewriterEffect content false s)).displayedContent = content) := by
  have h := runTicks_activated content s hne k
  by_cases hk : k ≤ content.length
  · refine ⟨by simp [typewriterEffect, hne], ?_, fun _ => by simp [h, hk], fun hlt => ?_⟩
    · simp [h, hk]
    · exact absurd hk (Nat.not_le_of_lt hlt)
  · have hle : content.length ≤ k := Nat.le_of_not_le hk
    refine ⟨by simp [typewriterEffect, hne], ?_, fun hk2 => absurd hk2 hk, fun _ => ?_⟩
    · simp [h, hk, List.take_of_length_le hle]
    · simp [h, hk]

/-- Witness for C1 (amended) at `content = "hi"`, `k = 3`: after three ticks
the displayed text is the full `"hi"` and `isTyping` is false. -/
theorem typewriter_reveal_witness :
    (runTicks (String.toList "hi") 3 (typewriterEffect (String.toList "hi") false
      { displayedContent := [], isTyping := false, index := 0,
        timerActive := false })).isTyping = false ∧
    (runTicks (String.toList "hi") 3 (typewriterEffect (String.toList "hi") false
      { displayedContent := [], isTyping := false, index := 0,
        timerActive := false })).displayedContent = String.toList "hi" :=
  (typewriter_reveal (String.toList "hi")
    { displayedContent := [], isTyping := false, index := 0, timerActive := false }
    (by decide) 3).2.2.2 (by decide)

/-- C8: when the effect re-runs with a new non-empty content while a previous
reveal is mid-flight (any prior player state), the old interval is cancelled
and replaced — the state holds its single timer handle (`timerActive`), reset
and re-armed by the effect — playback restarts from empty (`index = 0`,
displayed text empty), and after any number of ticks the displayed text is a
prefix of the *new* content (`displayed ++ drop k newContent = newContent`),
so no character of the old content appears during the new reveal. -/
theorem typewriter_restart (oldState : PlayerState) (newContent : List Char)
    (hne : newContent ≠ []) (k : Nat) :
    (typewriterEffect newContent false oldState).displayedContent = [] ∧
    (typewriterEffect newContent false oldState).index = 0 ∧
    (typewriterEffect newContent false oldState).timerActive = true ∧
    (runTicks newContent k (typewriterEffect newContent false oldState)).displayedContent ++
      newContent.drop k = newContent := by
  have h := runTicks_activated newContent oldState hne k
  refine ⟨by simp [typewriterEffect, hne], by simp [typewriterEffect, hne],
    by simp [typewriterEffect, hne], ?_⟩
  by_cases hk : k ≤ newContent.length
  · simp [h, hk, List.take_append_drop]
  · have hle : newContent.length ≤ k := Nat.le_of_not_le hk
    simp [h, hk, List.drop_of_length_le hle]

/-- Witness for C8: a player mid-reveal of `"abc"` restarted with `"xy"`
shows `"x"` after one tick, a prefix of the new content only. -/
theorem typewriter_restart_witness :
    (runTicks (String.toList "xy") 1 (typewriterEffect (String.toList "xy") false
      { displayedContent := String.toList "ab", isTyping := true, index := 2,
        timerActive := true })).displayedContent ++ (String.toList "xy").drop 1 =
      String.toList "xy" :=
  (typewriter_restart
    { displayedContent := String.toList "ab", isTyping := true, index := 2,
      timerActive := true }
    (String.toList "xy") (by decide) 1).2.2.2

/-! ## Session Controller (`Index.tsx`)

Page-level state and the generate / history-select / clear operations.  The
`localStorage` key `minigpt-history` is modelled as `storage : Option (List
ChatMessage)` (`none` = key absent); toasts are modelled as the record the
source passes to `toast(...)`. -/

/-- `ChatMessage` (`Index.tsx` lines 21-29); `timestamp`/`id` come from
`Date.now()`, modelled as a `Nat` epoch value. -/
structure ChatMessage where
  id : String
  prompt : String
  response : String
  timestamp : Nat
  config : ModelConfig
  inferenceTime : Option Nat
  tokensUsed : Option Nat
deriving DecidableEq, Repr

/-- The page-level React state of `Index` (`Index.tsx` lines 32-44) together
with the persistent store behind `localStorage.getItem/setItem/removeItem`
for the `minigpt-history` key.  Presentational flags (panel visibility,
booting, mobile) are out of the modelled core. -/
structure SessionState where
  prompt : String
  isGenerating : Bool
  currentResponse : String
  chatHistory : List ChatMessage
  config : ModelConfig
  storage : Option (List ChatMessage)
deriving DecidableEq, Repr

/-- `saveHistory` (`Index.tsx` lines 74-77): write the whole collection to the
persistent key and set it as the in-memory history. -/
def saveHistory (newHistory : List ChatMessage) (s : SessionState) : SessionState :=
  { s with storage := some newHistory, chatHistory := newHistory }

/-- Outcome of the `fetch('/api/predict')` call as seen by `handleGenerate`:
either a 2xx response whose parsed JSON carries the two optional fields, or
any failure (non-2xx, which the source turns into a `throw`, or a transport
error) — both land in the same `catch` block. -/
inductive ApiResult where
  | ok (generated_text : Option String) (tokens_used : Option Nat)
  | failed
deriving DecidableEq, Repr

/-- JS `a || b` on an optional string field: the default is taken when the
field is absent *or* equal to the falsy `""`. -/
def jsOrString (v : Option String) (d : String) : String :=
  match v with
  | none => d
  | some t => if t = "" then d else t

/-- JS `a || b` on an optional numeric field: the default is taken when the
field is absent *or* equal to the falsy `0`. -/
def jsOrNat (v : Option Nat) (d : Nat) : Nat :=
  match v with
  | none => d
  | some n => if n = 0 then d else n

/-- The placeholder used when `data.generated_text` is falsy
(`Index.tsx` line 126). -/
def placeholderResponse : String :=
  "Sample generated response from MiniGPT-MLOps model..."

/-- The truth value of the JS guard `!prompt.trim()` (`Index.tsx` line 80):
the trimmed prompt is empty exactly when every character is whitespace. -/
def trimIsEmpty (s : String) : Bool :=
  s.toList.all Char.isWhitespace

/-- First literal chunk of the demo-mode template (`Index.tsx` line 144),
up to the interpolated prompt. -/
def mockIntro : String :=
  "This is a demonstration of MiniGPT-MLOps generating text based on your prompt: \""

/-- Literal chunk between the prompt and the interpolated temperature. -/
def mockTemperatureLabel : String :=
  "\"\n\nThe model would process this input using the transformer architecture with the following parameters:\n- Temperature: "

/-- Literal chunk before the interpolated max-tokens value. -/
def mockMaxTokensLabel : String := "\n- Max Tokens: "

/-- Literal chunk before the interpolated top-k value. -/
def mockTopKLabel : String := "\n- Top-k: "

/-- Literal chunk before the interpolated top-p value. -/
def mockTopPLabel : String := "\n- Top-p: "

/-- Closing literal chunk of the demo-mode template. -/
def mockOutro : String :=
  "\n\nIn a real implementation, this would connect to your FastAPI backend at /predict endpoint."

/-- The demo-mode fallback text built in the `catch` block
(`Index.tsx` line 144): a template literal echoing the prompt and the four
sampling parameters of the config in use.  Interpolated numbers are rendered
by `toString`. -/
def mockResponse (prompt : String) (config : ModelConfig) : String :=
  mockIntro ++ prompt ++
    mockTemperatureLabel ++ toString config.temperature ++
    mockMaxTokensLabel ++ toString config.maxTokens ++
    mockTopKLabel ++ toString config.topK ++
    mockTopPLabel ++ toString config.topP ++
    mockOutro

/-- A call to the `toast(...)` hook, as the source fills it in. -/
structure Toast where
  title : String
  description : String
  destructive : Bool
deriving DecidableEq, Repr

/-- What one `handleGenerate` run produces: the final page state, the toast
that was shown, and whether the Generation Collaborator was contacted. -/
structure GenResult where
  state : SessionState
  toast : Toast
  apiCalled : Bool
deriving DecidableEq, Repr

/-- `handleGenerate` (`Index.tsx` lines 79-167).  `api` is the observed
outcome of the single `fetch`; `now` is `Date.now()` at message creation;
`elapsedMs` is the measured wall-clock latency.  The guard returns early
with a destructive toast and no other effect; the success branch coalesces
the optional payload fields with JS `||`; the catch branch builds the
deterministic demo fallback with fixed placeholder latency (1200) and token
count (85); both branches prepend the new message, persist via
`saveHistory`, set `currentResponse`, and finally clear `isGenerating`. -/
def handleGenerate (s : SessionState) (api : ApiResult) (now : Nat) (elapsedMs : Nat) :
    GenResult :=
  if trimIsEmpty s.prompt then
    { state := s
      toast := { title := "Empty prompt"
                 description := "Please enter a prompt to generate text."
                 destructive := true }
      apiCalled := false }
  else
    let s1 := { s with isGenerating := true, currentResponse := "" }
    match api with
    | .ok generated_text tokens_used =>
      let newMessage : ChatMessage :=
        { id := toString now
          prompt := s.prompt
          response := jsOrString generated_text placeholderResponse
          timestamp := now
          config := s.config
          inferenceTime := some elapsedMs
          tokensUsed := some (jsOrNat tokens_used 42) }
      let s2 := saveHistory (newMessage :: s1.chatHistory)
        { s1 with currentResponse := newMessage.response }
      { state := { s2 with isGenerating := false }
        toast := { title := "Text generated successfully!"
                   description := "Generated in " ++ toString elapsedMs ++ "ms"
                   destructive := false }
        apiCalled := true }
    | .failed =>
      let newMessage : ChatMessage :=
        { id := toString now
          prompt := s.prompt
          response := mockResponse s.prompt s.config
          timestamp := now
          config := s.config
          inferenceTime := some 1200
          tokensUsed := some 85 }
      let s2 := saveHistory (newMessage :: s1.chatHistory)
        { s1 with currentResponse := newMessage.response }
      { state := { s2 with isGenerating := false }
        toast := { title := "Demo mode active"
                   description := "Connect to FastAPI backend for live generation"
                   destructive := false }
        apiCalled := true }

/-- `handleHistorySelect` (`Index.tsx` lines 169-176): restore prompt,
response display, and config from the selected entry. -/
def handleHistorySelect (s : SessionState) (message : ChatMessage) : SessionState :=
  { s with prompt := message.prompt
           currentResponse := message.response
           config := message.config }

/-- `clearHistory` (`Index.tsx` lines 178-185): remove the persisted key and
empty the in-memory history. -/
def clearHistory (s : SessionState) : SessionState :=
  { s with chatHistory := [], storage := none }

/-- `SettingsPanel.updateConfig` wired through `onConfigChange = setConfig`:
replace the page's config with the single-field update. -/
def sessionUpdateField (s : SessionState) (key : ConfigField) (value : Rat) : SessionState :=
  { s with config := updateConfig s.config key value }

/-- `SettingsPanel.handlePresetChange` wired through `onConfigChange`. -/
def sessionApplyPreset (s : SessionState) (p : Preset) : SessionState :=
  { s with config := handlePresetChange s.config p }

/-- `SettingsPanel.handleReset` wired through `onConfigChange`. -/
def sessionReset (s : SessionState) : SessionState :=
  { s with config := handleReset }

/-- A string occurs verbatim inside another. -/
def containsSub (s sub : String) : Prop :=
  ∃ l r, s = l ++ (sub ++ r)

/-- A sample page state with a whitespace-only prompt, for witnesses. -/
def blankPromptSession : SessionState :=
  { prompt := "   ", isGenerating := false, currentResponse := ""
    chatHistory := [], config := initialConfig, storage := none }

/-- A sample stored entry, for witnesses. -/
def sampleMessage : ChatMessage :=
  { id := "1", prompt := "hi", response := "resp", timestamp := 1
    config := initialConfig, inferenceTime := some 10, tokensUsed := some 5 }

/-- A sample page state holding `sampleMessage`, with the prompt
`"test prompt"`, for witnesses. -/
def testSession : SessionState :=
  { prompt := "test prompt", isGenerating := false, currentResponse := ""
    chatHistory := [sampleMessage], config := initialConfig
    storage := some [sampleMessage] }

/-- C4: on a prompt whose trim is empty, `handleGenerate` returns before the
fetch with a destructive "Empty prompt" toast: the collaborator is not
called, and the whole page state — history and persisted store included —
is unchanged. -/
theorem generate_empty_prompt_rejected (s : SessionState) (api : ApiResult)
    (now elapsedMs : Nat) (h : trimIsEmpty s.prompt = true) :
    (handleGenerate s api now elapsedMs).state = s ∧
    (handleGenerate s api now elapsedMs).apiCalled = false ∧
    (handleGenerate s api now elapsedMs).toast =
      { title := "Empty prompt"
        description := "Please enter a prompt to generate text."
        destructive := true } ∧
    (handleGenerate s api now elapsedMs).state.chatHistory = s.chatHistory ∧
    (handleGenerate s api now elapsedMs).state.storage = s.storage := by
  simp [handleGenerate, h]

/-- Witness for C4: a three-space prompt leaves the sample state untouched
and never contacts the collaborator. -/
theorem generate_empty_prompt_rejected_witness :
    (handleGenerate blankPromptSession .failed 0 0).state = blankPromptSession ∧
    (handleGenerate blankPromptSession .failed 0 0).apiCalled = false := by
  obtain ⟨h1, h2, -, -, -⟩ :=
    generate_empty_prompt_rejected blankPromptSession .failed 0 0 (by decide)
  exact ⟨h1, h2⟩

/-- C2: with a non-whitespace prompt and a failing collaborator,
`handleGenerate` surfaces no blocking error (non-destructive toast) and
appends exactly one new entry whose response is the deterministic fallback
text containing the prompt and the four configuration values, with the
fixed placeholder latency 1200 and token count 85. -/
theorem generate_failure_fallback (s : SessionState) (now elapsedMs : Nat)
    (h : trimIsEmpty s.prompt = false) :
    ∃ m : ChatMessage,
      (handleGenerate s .failed now elapsedMs).state.chatHistory = m :: s.chatHistory ∧
      (handleGenerate s .failed now elapsedMs).state.chatHistory.length =
        s.chatHistory.length + 1 ∧
      m.response = mockResponse s.prompt s.config ∧
      containsSub m.response s.prompt ∧
      containsSub m.response (toString s.config.temperature) ∧
      containsSub m.response (toString s.config.maxTokens) ∧
      containsSub m.response (toString s.config.topK) ∧
      containsSub m.response (toString s.config.topP) ∧
      m.inferenceTime = some 1200 ∧
      m.tokensUsed = some 85 ∧
      (handleGenerate s .failed now elapsedMs).toast.destructive = false ∧
      (handleGenerate s .failed now elapsedMs).apiCalled = true := by
  refine ⟨{ id := toString now, prompt := s.prompt
            response := mockResponse s.prompt s.config, timestamp := now
            config := s.config, inferenceTime := some 1200, tokensUsed := some 85 },
    ?_, ?_, rfl, ?_, ?_, ?_, ?_, ?_, rfl, rfl, ?_, ?_⟩
  · simp [handleGenerate, h, saveHistory]
  · simp [handleGenerate, h, saveHistory]
  · exact ⟨mockIntro,
      mockTemperatureLabel ++ (toString s.config.temperature ++ (mockMaxTokensLabel ++
        (toString s.config.maxTokens ++ (mockTopKLabel ++ (toString s.config.topK ++
          (mockTopPLabel ++ (toString s.config.topP ++ mockOutro))))))),
      by simp [mockResponse, String.append_assoc]⟩
  · exact ⟨mockIntro ++ (s.prompt ++ mockTemperatureLabel),
      mockMaxTokensLabel ++ (toString s.config.maxTokens ++ (mockTopKLabel ++
        (toString s.config.topK ++ (mockTopPLabel ++ (toString s.config.topP ++
          mockOutro))))),
      by simp [mockResponse, String.append_assoc]⟩
  · exact ⟨mockIntro ++ (s.prompt ++ (mockTemperatureLabel ++
        (toString s.config.temperature ++ mockMaxTokensLabel))),
      mockTopKLabel ++ (toString s.config.topK ++ (mockTopPLabel ++
        (toString s.config.topP ++ mockOutro))),
      by simp [mockResponse, String.append_assoc]⟩
  · exact ⟨mockIntro ++ (s.prompt ++ (mockTemperatureLabel ++
        (toString s.config.temperature ++ (mockMaxTokensLabel ++
          (toString s.config.maxTokens ++ mockTopKLabel))))),
      mockTopPLabel ++ (toString s.config.topP ++ mockOutro),
      by simp [mockResponse, String.append_assoc]⟩
  · exact ⟨mockIntro ++ (s.prompt ++ (mockTemperatureLabel ++
        (toString s.config.temperature ++ (mockMaxTokensLabel ++
          (toString s.config.maxTokens ++ (mockTopKLabel ++
            (toString s.config.topK ++ mockTopPLabel))))))),
      mockOutro,
      by simp [mockResponse, String.append_assoc]⟩
  · simp [handleGenerate, h]
  · simp [handleGenerate, h]

/-- Witness for C2: generating `"test prompt"` against a failing collaborator
grows the sample history from 1 to 2 entries. -/
theorem generate_failure_fallback_witness :
    (handleGenerate testSession .failed 2 0).state.chatHistory.length =
      testSession.chatHistory.length + 1 := by
  obtain ⟨m, -, hlen, -⟩ := generate_failure_fallback testSession 2 0 (by decide)
  exact hlen

/-- C6: after either `handleGenerate` branch on a non-blank prompt the
persisted collection under the history key is exactly the in-memory
collection (same order, newest first), and `clearHistory` empties the
in-memory collection and removes the persisted key. -/
theorem history_storage_sync (s : SessionState) (api : ApiResult) (now elapsedMs : Nat)
    (h : trimIsEmpty s.prompt = false) :
    (handleGenerate s api now elapsedMs).state.storage =
      some (handleGenerate s api now elapsedMs).state.chatHistory ∧
    (clearHistory s).chatHistory = [] ∧
    (clearHistory s).chatHistory.length = 0 ∧
    (clearHistory s).storage = none := by
  cases api <;> simp [handleGenerate, h, saveHistory, clearHistory]

/-- Witness for C6: a demo-mode generation on the sample state leaves storage
mirroring memory, and clearing removes key and entries. -/
theorem history_storage_sync_witness :
    (handleGenerate testSession .failed 2 0).state.storage =
      some (handleGenerate testSession .failed 2 0).state.chatHistory ∧
    (clearHistory testSession).chatHistory = [] ∧
    (clearHistory testSession).storage = none := by
  obtain ⟨h1, h2, -, h4⟩ := history_storage_sync testSession .failed 2 0 (by decide)
  exact ⟨h1, h2, h4⟩

/-- C5: selecting a stored entry restores prompt, response display, and config
to the entry's snapshot without creating a new entry, and any later config
mutation — single-field update, preset application, or reset — leaves the
history (hence every stored snapshot, this entry included) unchanged,
whether it happens after the selection or at any other time. -/
theorem selectFromHistory_restores (s : SessionState) (m : ChatMessage)
    (hm : m ∈ s.chatHistory) :
    (handleHistorySelect s m).prompt = m.prompt ∧
    (handleHistorySelect s m).currentResponse = m.response ∧
    (handleHistorySelect s m).config = m.config ∧
    (handleHistorySelect s m).chatHistory = s.chatHistory ∧
    (∀ key value,
      (sessionUpdateField (handleHistorySelect s m) key value).chatHistory =
        s.chatHistory) ∧
    (∀ p, (sessionApplyPreset (handleHistorySelect s m) p).chatHistory = s.chatHistory) ∧
    (sessionReset (handleHistorySelect s m)).chatHistory = s.chatHistory ∧
    (∀ key value,
      m ∈ (sessionUpdateField (handleHistorySelect s m) key value).chatHistory) ∧
    (∀ key value, (sessionUpdateField s key value).chatHistory = s.chatHistory) ∧
    (∀ p, (sessionApplyPreset s p).chatHistory = s.chatHistory) ∧
    (sessionReset s).chatHistory = s.chatHistory := by
  refine ⟨rfl, rfl, rfl, rfl, fun _ _ => rfl, fun _ => rfl, rfl, fun _ _ => hm,
    fun _ _ => rfl, fun _ => rfl, rfl⟩

/-- Witness for C5: selecting the sample stored entry restores its config, and
a subsequent temperature update leaves the stored history untouched. -/
theorem selectFromHistory_restores_witness :
    (handleHistorySelect testSession sampleMessage).config = sampleMessage.config ∧
    (sessionUpdateField (handleHistorySelect testSession sampleMessage)
      .temperature 0.3).chatHistory = testSession.chatHistory := by
  obtain ⟨-, -, h3, -, h5, -⟩ :=
    selectFromHistory_restores testSession sampleMessage
      (by simp [testSession])
  exact ⟨h3, h5 .temperature 0.3⟩

/-- C10: the optional payload fields are coalesced on JS falsiness, not on
absence: a present-but-empty `generated_text` yields the placeholder
response, a present-but-zero `tokens_used` yields the fallback 42, and the
entire result of such a call is indistinguishable from one whose payload
was missing both fields. -/
theorem falsy_field_coalescing (s : SessionState) (now elapsedMs : Nat)
    (h : trimIsEmpty s.prompt = false) :
    handleGenerate s (.ok (some "") (some 0)) now elapsedMs =
      handleGenerate s (.ok none none) now elapsedMs ∧
    ∃ m : ChatMessage,
      (handleGenerate s (.ok (some "") (some 0)) now elapsedMs).state.chatHistory =
        m :: s.chatHistory ∧
      m.response = placeholderResponse ∧
      m.tokensUsed = some 42 := by
  refine ⟨by simp [handleGenerate, h, jsOrString, jsOrNat], ?_⟩
  refine ⟨{ id := toString now, prompt := s.prompt, response := placeholderResponse
            timestamp := now, config := s.config, inferenceTime := some elapsedMs
            tokensUsed := some 42 }, ?_, rfl, rfl⟩
  simp [handleGenerate, h, saveHistory, jsOrString, jsOrNat]

/-- Witness for C10: on the sample state, a success payload with empty text
and zero tokens stores the placeholder response and 42 tokens. -/
theorem falsy_field_coalescing_witness :
    handleGenerate testSession (.ok (some "") (some 0)) 2 7 =
      handleGenerate testSession (.ok none none) 2 7 ∧
    ∃ m : ChatMessage,
      (handleGenerate testSession (.ok (some "") (some 0)) 2 7).state.chatHistory =
        m :: testSession.chatHistory ∧
      m.response = placeholderResponse ∧
      m.tokensUsed = some 42 :=
  falsy_field_coalescing testSession 2 7 (by decide)
